import Mathlib

/-!
Verification of the wage/payment computation and reconciliation core of the
D Square construction-CRM backend (an Express + Prisma service).

Numbers that the JavaScript source manipulates as IEEE doubles are modelled
as rationals (`ℚ`): every computation the claims touch uses only `+`, `-`,
`*`, `/`, `max` and comparisons on amounts, for which `ℚ` is the exact
idealisation the spec describes ("no rounding is applied internally").
Timestamps (`new Date()`) are modelled as an abstract `Nat` clock passed in
by the caller; database ids and free-text metadata that no claim touches are
omitted from the record types.
-/

namespace DSquare

/-- Payment status of a billable ledger (`paymentStatus` column of material
and raw-material orders). -/
inductive PaymentStatus
  | PENDING
  | PARTIAL
  | PAID
  deriving DecidableEq, Repr

/-- Status of a payment milestone (`status` column of `payment` rows),
src/routes/payments.js. -/
inductive MilestoneStatus
  | PENDING
  | AWAITING_CLIENT
  | AWAITING_ADMIN
  | PARTIAL
  | PAID
  deriving DecidableEq, Repr

/-- Notification `type` values used by the payment routes. -/
inductive NotifType
  | PAYMENT_REMINDER
  | ALERT
  | SUCCESS
  | INFO
  deriving DecidableEq, Repr

/-- Errors the payment route handlers can answer with before touching any
state: 404 when the looked-up row is missing, 400 when the dual
acknowledgment precondition fails (src/routes/payments.js lines 276-289). -/
inductive RouteError
  | NotFound
  | PreconditionFailed
  deriving DecidableEq, Repr

/-- Outcome of a route handler: an error response, or a success payload.
No state is carried by the error case, mirroring that the handlers return
before performing any database write. -/
inductive Res (α : Type)
  | err (e : RouteError)
  | ok (a : α)
  deriving DecidableEq, Repr

/-- Whether a route outcome is a success. -/
def Res.isOk {α : Type} : Res α → Bool
  | .err _ => false
  | .ok _ => true

/-- Success payload of a route outcome, if any. -/
def Res.toOption {α : Type} : Res α → Option α
  | .err _ => none
  | .ok a => some a

/-- Shift kinds accepted by the workforce wage calculator
(src/routes/workforce.js). The source compares a string against
`NIGHT`/`FULL_DAY`/`HALF_DAY`; every other value (the claims use `DAY`)
keeps the initial multiplier 1. -/
inductive Shift
  | DAY
  | NIGHT
  | FULL_DAY
  | HALF_DAY
  deriving DecidableEq, Repr

/-- The shift multiplier, transcribing the successive `if` statements of
`calculateWage` (src/routes/workforce.js lines 24-27): `multiplier` starts
at 1 and is overwritten for NIGHT / FULL_DAY / HALF_DAY. -/
def multiplierOf (shift : Shift) : ℚ :=
  if shift = .NIGHT then 1.25
  else if shift = .FULL_DAY then 1.5
  else if shift = .HALF_DAY then 0.5
  else 1

/-- `calculateWage(count, ratePerWorker, hoursWorked, shift, shiftFraction)`
from src/routes/workforce.js lines 23-40. Up to `baseHours = 8` the wage is
prorated by `hoursWorked / 8`; beyond 8 hours the full regular pay is due
plus overtime at rate 1.5 on the per-hour rate (the overtime term does not
carry `shiftFraction`, exactly as in the source). -/
def calculateWage (count ratePerWorker hoursWorked : ℚ) (shift : Shift)
    (shiftFraction : ℚ) : ℚ :=
  let multiplier := multiplierOf shift
  let baseHours : ℚ := 8
  let overtimeRate : ℚ := 1.5
  if hoursWorked ≤ baseHours then
    count * ratePerWorker * (hoursWorked / baseHours) * multiplier * shiftFraction
  else
    let regularPay := count * ratePerWorker * multiplier * shiftFraction
    let overtimeHours := hoursWorked - baseHours
    let overtimePay :=
      count * (ratePerWorker / baseHours) * overtimeHours * overtimeRate * multiplier
    regularPay + overtimePay

/-- C4: the wage calculator returns
`count * rate * (hours/8) * multiplier * fraction` when `hours ≤ 8`, and
`count * rate * multiplier * fraction + count * (rate/8) * (hours-8) * 1.5 * multiplier`
otherwise, with multiplier 1.0 / 1.25 / 1.5 / 0.5 for DAY / NIGHT /
FULL_DAY / HALF_DAY; in particular count=5, rate=800, hours=10, shift=DAY
yields 5500. -/
theorem calculateWage_spec :
    multiplierOf .DAY = 1 ∧
    multiplierOf .NIGHT = 1.25 ∧
    multiplierOf .FULL_DAY = 1.5 ∧
    multiplierOf .HALF_DAY = 0.5 ∧
    (∀ (count rate hours : ℚ) (shift : Shift) (fraction : ℚ), hours ≤ 8 →
      calculateWage count rate hours shift fraction =
        count * rate * (hours / 8) * multiplierOf shift * fraction) ∧
    (∀ (count rate hours : ℚ) (shift : Shift) (fraction : ℚ), ¬ hours ≤ 8 →
      calculateWage count rate hours shift fraction =
        count * rate * multiplierOf shift * fraction +
          count * (rate / 8) * (hours - 8) * 1.5 * multiplierOf shift) ∧
    calculateWage 5 800 10 .DAY 1 = 5500 := by
  refine ⟨rfl, rfl, rfl, rfl, ?_, ?_, ?_⟩
  case refine_3 =>
    simp [calculateWage, multiplierOf]
    norm_num
  · intro count rate hours shift fraction h
    simp only [calculateWage, if_pos h]
  · intro count rate hours shift fraction h
    simp only [calculateWage, if_neg h]

/-- Witness for `calculateWage_spec`: both branches exercised at concrete
inputs. -/
theorem calculateWage_spec_witness :
    ((8 : ℚ) ≤ 8 ∧
      calculateWage 5 800 8 .DAY 1 = 5 * 800 * ((8 : ℚ) / 8) * multiplierOf .DAY * 1) ∧
    (¬ (10 : ℚ) ≤ 8 ∧
      calculateWage 5 800 10 .NIGHT 1 =
        5 * 800 * multiplierOf .NIGHT * 1 +
          5 * (800 / 8) * ((10 : ℚ) - 8) * 1.5 * multiplierOf .NIGHT) :=
  ⟨⟨by norm_num, calculateWage_spec.2.2.2.2.1 5 800 8 .DAY 1 (by norm_num)⟩,
   ⟨by norm_num, calculateWage_spec.2.2.2.2.2.1 5 800 10 .NIGHT 1 (by norm_num)⟩⟩

/-- A material order's billable-ledger fields (Prisma `material` rows as
used by src/unnamed/part_000). Identifier, supplier, delivery and free-text
metadata columns are omitted: no claim reads them. -/
structure Material where
  quantity : ℚ
  unitPrice : ℚ
  totalCost : ℚ
  paidAmount : ℚ
  remainingAmount : ℚ
  paymentStatus : PaymentStatus
  deriving DecidableEq, Repr

/-- The immutable `materialPayment` audit row created by the material
payment handler; only the amount matters to the claims (mode, reference,
notes and receipt URL are metadata copied from the request). -/
structure MaterialPayment where
  amount : ℚ
  deriving DecidableEq, Repr

/-- Core of the material payment handler
(src/unnamed/part_000 lines 519-546), after the row lookup:
`newPaidAmount = paidAmount + amount`,
`newRemainingAmount = totalCost - newPaidAmount`,
`isFullyPaid = newRemainingAmount <= 0`; the row is updated with
`paidAmount = newPaidAmount`, `remainingAmount = max 0 newRemainingAmount`
and `paymentStatus = PAID if isFullyPaid else PARTIAL`, and a
`materialPayment` record holding the amount is created.
There is no validation of the amount anywhere in the handler. -/
def applyMaterialPayment (material : Material) (amount : ℚ) :
    Material × MaterialPayment :=
  let paymentAmount := amount
  let newPaidAmount := material.paidAmount + paymentAmount
  let newRemainingAmount := material.totalCost - newPaidAmount
  ({ material with
      paidAmount := newPaidAmount
      remainingAmount := max 0 newRemainingAmount
      paymentStatus := if newRemainingAmount ≤ 0 then .PAID else .PARTIAL },
   { amount := paymentAmount })

/-- The full POST /api/materials/:id/payment handler
(src/unnamed/part_000 lines 506-567): 404 when the material row is missing,
otherwise the ledger update above. -/
def postMaterialPayment (material? : Option Material) (amount : ℚ) :
    Res (Material × MaterialPayment) :=
  match material? with
  | none => .err .NotFound
  | some material => .ok (applyMaterialPayment material amount)

/-- Folding a sequence of payment postings over one material ledger. -/
def applyPayments (m : Material) (ps : List ℚ) : Material :=
  ps.foldl (fun acc a => (applyMaterialPayment acc a).1) m

theorem applyPayments_totalCost (ps : List ℚ) (m : Material) :
    (applyPayments m ps).totalCost = m.totalCost := by
  induction ps generalizing m with
  | nil => rfl
  | cons a t ih =>
    simp only [applyPayments, List.foldl_cons]
    exact ih ((applyMaterialPayment m a).1)

theorem applyPayments_paidAmount (ps : List ℚ) (m : Material) :
    (applyPayments m ps).paidAmount = m.paidAmount + ps.sum := by
  induction ps generalizing m with
  | nil => simp [applyPayments]
  | cons a t ih =>
    simp only [applyPayments, List.foldl_cons, List.sum_cons]
    rw [show List.foldl (fun acc x => (applyMaterialPayment acc x).1)
          ((applyMaterialPayment m a).1) t
        = applyPayments ((applyMaterialPayment m a).1) t from rfl, ih]
    show m.paidAmount + a + t.sum = m.paidAmount + (a + t.sum)
    ring

/-- C1: a positive payment on a billable ledger sets paid to the previous
paid plus the amount, remaining to `max 0 (total - newPaid)` (never
negative, even on overpayment), and the status is PAID exactly when the new
remaining is 0 and PARTIAL exactly when the new paid is positive and
remaining positive; consequently any nonempty sequence of positive payments
summing to the total ends with status PAID and remaining 0. -/
theorem applyPayment_spec :
    (∀ (m : Material) (a : ℚ), 0 ≤ m.paidAmount → 0 < a →
      (applyMaterialPayment m a).1.paidAmount = m.paidAmount + a ∧
      (applyMaterialPayment m a).1.remainingAmount
        = max 0 (m.totalCost - (m.paidAmount + a)) ∧
      0 ≤ (applyMaterialPayment m a).1.remainingAmount ∧
      ((applyMaterialPayment m a).1.paymentStatus = .PAID ↔
        (applyMaterialPayment m a).1.remainingAmount = 0) ∧
      ((applyMaterialPayment m a).1.paymentStatus = .PARTIAL ↔
        0 < (applyMaterialPayment m a).1.paidAmount ∧
          0 < (applyMaterialPayment m a).1.remainingAmount)) ∧
    (∀ (m : Material) (ps : List ℚ), m.paidAmount = 0 →
      (∀ x ∈ ps, 0 < x) → ps.sum = m.totalCost → ps ≠ [] →
      (applyPayments m ps).remainingAmount = 0 ∧
      (applyPayments m ps).paymentStatus = .PAID) := by
  constructor
  · intro m a hp ha
    have hpa : 0 < m.paidAmount + a := add_pos_of_nonneg_of_pos hp ha
    by_cases h : m.totalCost - (m.paidAmount + a) ≤ 0
    · refine ⟨rfl, rfl, le_max_left _ _, ?_, ?_⟩
      · simp [applyMaterialPayment, if_pos h, max_eq_left h]
        exact sub_nonpos.mp h
      · simp [applyMaterialPayment, if_pos h, max_eq_left h]
        exact sub_nonpos.mp h
    · push_neg at h
      have hmax : max 0 (m.totalCost - (m.paidAmount + a))
          = m.totalCost - (m.paidAmount + a) := max_eq_right h.le
      refine ⟨rfl, rfl, ?_, ?_, ?_⟩
      · show 0 ≤ max 0 (m.totalCost - (m.paidAmount + a))
        exact le_max_left _ _
      · simp [applyMaterialPayment, if_neg (not_le.mpr h), hmax, h.ne']
        exact sub_pos.mp h
      · simp [applyMaterialPayment, if_neg (not_le.mpr h), hmax, hpa, h]
        exact sub_pos.mp h
  · intro m ps hp0 _ hsum hne
    rcases List.eq_nil_or_concat ps with rfl | ⟨ys, a, rfl⟩
    · exact absurd rfl hne
    · simp only [List.concat_eq_append] at hsum hne ⊢
      have hfold : applyPayments m (ys ++ [a])
          = (applyMaterialPayment (applyPayments m ys) a).1 := by
        simp [applyPayments, List.foldl_append]
      have htot : (applyPayments m ys).totalCost = m.totalCost :=
        applyPayments_totalCost ys m
      have hpaid : (applyPayments m ys).paidAmount = ys.sum := by
        rw [applyPayments_paidAmount, hp0, zero_add]
      have hsum' : ys.sum + a = m.totalCost := by simpa using hsum
      have hzero : (applyPayments m ys).totalCost
          - ((applyPayments m ys).paidAmount + a) = 0 := by
        rw [htot, hpaid, hsum', sub_self]
      rw [hfold]
      constructor
      · show max 0 ((applyPayments m ys).totalCost
          - ((applyPayments m ys).paidAmount + a)) = 0
        rw [hzero]
        exact max_self 0
      · show (if (applyPayments m ys).totalCost
            - ((applyPayments m ys).paidAmount + a) ≤ 0
            then PaymentStatus.PAID else PaymentStatus.PARTIAL) = .PAID
        rw [hzero]
        simp

/-- A concrete material ledger used by the witnesses: total 100, nothing
paid yet. -/
def matSample : Material :=
  { quantity := 1, unitPrice := 100, totalCost := 100, paidAmount := 0,
    remainingAmount := 100, paymentStatus := .PENDING }

/-- Witness for `applyPayment_spec`: a single payment of 30 on the sample
ledger, and the sequence [60, 40] summing to its total. -/
theorem applyPayment_spec_witness :
    ((0 : ℚ) ≤ matSample.paidAmount ∧ (0 : ℚ) < 30 ∧
      (applyMaterialPayment matSample 30).1.paidAmount
        = matSample.paidAmount + 30) ∧
    (matSample.paidAmount = 0 ∧ (∀ x ∈ [(60 : ℚ), 40], 0 < x) ∧
      ([(60 : ℚ), 40]).sum = matSample.totalCost ∧
      [(60 : ℚ), 40] ≠ [] ∧
      (applyPayments matSample [60, 40]).remainingAmount = 0 ∧
      (applyPayments matSample [60, 40]).paymentStatus = .PAID) := by
  have h1 : (0 : ℚ) ≤ matSample.paidAmount := le_refl 0
  have h2 : (0 : ℚ) < 30 := by norm_num
  have h3 : (∀ x ∈ [(60 : ℚ), 40], 0 < x) := by
    norm_num [List.forall_mem_cons]
  have h4 : ([(60 : ℚ), 40]).sum = matSample.totalCost := by
    norm_num [matSample]
  have h5 : [(60 : ℚ), 40] ≠ [] := by simp
  have hseq := applyPayment_spec.2 matSample [60, 40] rfl h3 h4 h5
  exact ⟨⟨h1, h2, (applyPayment_spec.1 matSample 30 h1 h2).1⟩,
    ⟨rfl, h3, h4, h5, hseq.1, hseq.2⟩⟩

/-- A raw-material order's ledger fields (Prisma `rawMaterialOrder` rows
used by src/unnamed/part_005). This ledger stores no remaining-amount
column; order metadata is omitted. -/
structure RawOrder where
  totalAmount : ℚ
  paidAmount : ℚ
  paymentStatus : PaymentStatus
  deriving DecidableEq, Repr

/-- The immutable `rawMaterialPayment` audit row; only the amount matters
to the claims. -/
structure RawPayment where
  amount : ℚ
  deriving DecidableEq, Repr

/-- Core of the raw-material order payment handler
(src/unnamed/part_005 lines 261-303) after the row lookup:
`newPaidAmount = paidAmount + amount`, `isFullyPaid = newPaidAmount >=
totalAmount`, status PAID when fully paid else PARTIAL, and a payment
record is created. As in the material handler, the amount is not
validated. -/
def applyRawOrderPayment (order : RawOrder) (amount : ℚ) :
    RawOrder × RawPayment :=
  let paymentAmount := amount
  let newPaidAmount := order.paidAmount + paymentAmount
  ({ order with
      paidAmount := newPaidAmount
      paymentStatus :=
        if order.totalAmount ≤ newPaidAmount then .PAID else .PARTIAL },
   { amount := paymentAmount })

/-- The full POST /api/raw-materials/orders/:id/payment handler: 404 when
the order row is missing, otherwise the update above. -/
def postRawOrderPayment (order? : Option RawOrder) (amount : ℚ) :
    Res (RawOrder × RawPayment) :=
  match order? with
  | none => .err .NotFound
  | some order => .ok (applyRawOrderPayment order amount)

/-- A partly-paid material ledger used by the C7 refutation: total 100,
paid 20. -/
def matC7 : Material :=
  { quantity := 1, unitPrice := 100, totalCost := 100, paidAmount := 20,
    remainingAmount := 80, paymentStatus := .PARTIAL }

/-- C7 refutation: posting the non-positive amount -10 on an existing
material ledger does NOT fail - the handler answers success - and the
ledger does not keep its previous values: paid drops from 20 to 10. -/
theorem materialPayment_nonpositive_counterexample :
    (-10 : ℚ) ≤ 0 ∧
    (postMaterialPayment (some matC7) (-10)).isOk = true ∧
    (postMaterialPayment (some matC7) (-10)).toOption.map
      (fun r => r.1.paidAmount) = some 10 ∧
    matC7.paidAmount = 20 := by
  refine ⟨by norm_num, rfl, ?_, rfl⟩
  norm_num [postMaterialPayment, applyMaterialPayment, matC7, Res.toOption]

/-- C7 amended: neither payment handler validates the amount; a payment
posting with amount ≤ 0 on an existing row succeeds like any other: paid
becomes the previous paid plus the (non-positive) amount, the material
remaining is recomputed as `max 0 (total - newPaid)`, and an immutable
payment record holding that amount is still created. -/
theorem materialPayment_nonpositive_spec :
    ∀ (m : Material) (o : RawOrder) (a : ℚ), a ≤ 0 →
      postMaterialPayment (some m) a = .ok (applyMaterialPayment m a) ∧
      (applyMaterialPayment m a).1.paidAmount = m.paidAmount + a ∧
      (applyMaterialPayment m a).1.remainingAmount
        = max 0 (m.totalCost - (m.paidAmount + a)) ∧
      (applyMaterialPayment m a).2.amount = a ∧
      postRawOrderPayment (some o) a = .ok (applyRawOrderPayment o a) ∧
      (applyRawOrderPayment o a).1.paidAmount = o.paidAmount + a ∧
      (applyRawOrderPayment o a).2.amount = a :=
  fun _ _ _ _ => ⟨rfl, rfl, rfl, rfl, rfl, rfl, rfl⟩

/-- A raw order used by the witnesses. -/
def rawSample : RawOrder :=
  { totalAmount := 100, paidAmount := 0, paymentStatus := .PENDING }

/-- Witness for `materialPayment_nonpositive_spec` at amount -10. -/
theorem materialPayment_nonpositive_spec_witness :
    (-10 : ℚ) ≤ 0 ∧
    postMaterialPayment (some matC7) (-10)
      = .ok (applyMaterialPayment matC7 (-10)) ∧
    (applyRawOrderPayment rawSample (-10)).1.paidAmount
      = rawSample.paidAmount + (-10) :=
  ⟨by norm_num,
   (materialPayment_nonpositive_spec matC7 rawSample (-10) (by norm_num)).1,
   (materialPayment_nonpositive_spec matC7 rawSample (-10)
      (by norm_num)).2.2.2.2.2.1⟩

/-- The PUT /api/materials/:id handler's ledger recomputation
(src/unnamed/part_000 lines 572-605): when quantity and/or unitPrice is
supplied, `newTotal = newQty * newPrice` and
`remainingAmount = newTotal - current.paidAmount` - with NO clamping.
`parseInt`/`parseFloat` parsing and the pass-through of unrelated metadata
fields (`...rest`) are not modelled. -/
def updateMaterial (current : Material) (quantity? unitPrice? : Option ℚ) :
    Material :=
  if quantity?.isSome || unitPrice?.isSome then
    let newQty := quantity?.getD current.quantity
    let newPrice := unitPrice?.getD current.unitPrice
    let newTotal := newQty * newPrice
    { current with
        quantity := newQty
        unitPrice := newPrice
        totalCost := newTotal
        remainingAmount := newTotal - current.paidAmount }
  else current

/-- A material with paid 150 against a total of 200, about to be edited
down to a total of 100. -/
def matC6 : Material :=
  { quantity := 2, unitPrice := 100, totalCost := 200, paidAmount := 150,
    remainingAmount := 50, paymentStatus := .PARTIAL }

/-- C6 refutation: editing `matC6` to quantity 1 (total 100 < paid 150)
leaves `remainingAmount = -50`: the edit path does not clamp at 0. -/
theorem updateMaterial_counterexample :
    (updateMaterial matC6 (some 1) none).totalCost = 100 ∧
    matC6.paidAmount = 150 ∧
    (updateMaterial matC6 (some 1) none).remainingAmount = -50 ∧
    ¬ 0 ≤ (updateMaterial matC6 (some 1) none).remainingAmount := by
  refine ⟨?_, rfl, ?_, ?_⟩ <;>
    norm_num [updateMaterial, matC6]

/-- C6 amended: editing an order's quantity and/or unit price recomputes
`total = newQuantity * newUnitPrice` and
`remaining = total - paid` WITHOUT clamping - remaining goes negative when
the paid amount exceeds the new total. Paid itself is untouched. -/
theorem updateMaterial_spec :
    ∀ (m : Material) (q? p? : Option ℚ),
      (q?.isSome || p?.isSome) = true →
      (updateMaterial m q? p?).quantity = q?.getD m.quantity ∧
      (updateMaterial m q? p?).unitPrice = p?.getD m.unitPrice ∧
      (updateMaterial m q? p?).totalCost
        = q?.getD m.quantity * p?.getD m.unitPrice ∧
      (updateMaterial m q? p?).remainingAmount
        = (updateMaterial m q? p?).totalCost - m.paidAmount ∧
      (updateMaterial m q? p?).paidAmount = m.paidAmount := by
  intro m q? p? h
  simp [updateMaterial, h, if_true]

/-- Witness for `updateMaterial_spec` at the C6 material and quantity 1. -/
theorem updateMaterial_spec_witness :
    ((some (1 : ℚ)).isSome || (none : Option ℚ).isSome) = true ∧
    (updateMaterial matC6 (some 1) none).totalCost
      = (some (1 : ℚ)).getD matC6.quantity
        * (none : Option ℚ).getD matC6.unitPrice :=
  ⟨rfl, (updateMaterial_spec matC6 (some 1) none rfl).2.2.1⟩

/-- A vendor's running counters (Prisma `vendor` rows as mutated by the
material routes in src/unnamed/part_000). -/
structure Vendor where
  totalOrders : ℕ
  totalAmount : ℚ
  pendingAmount : ℚ
  totalPaid : ℚ
  deriving DecidableEq, Repr

/-- One vendor together with its material orders. -/
structure VendorState where
  vendor : Vendor
  orders : List Material
  deriving DecidableEq, Repr

/-- The two operations of src/unnamed/part_000 that touch a vendor's
counters: creating a material order for the vendor, and posting a payment
on one of its orders (addressed here by list position). -/
inductive VendorEvent
  | createOrder (quantity unitPrice : ℚ)
  | postPayment (idx : ℕ) (amount : ℚ)
  deriving DecidableEq, Repr

/-- Material row created by POST /api/materials
(src/unnamed/part_000 lines 440-458): `totalCost = qty * price`,
`remainingAmount = totalCost`; `paidAmount` and `paymentStatus` take the
database defaults 0 and PENDING. -/
def createMaterialOrder (quantity unitPrice : ℚ) : Material :=
  let totalCost := quantity * unitPrice
  { quantity := quantity, unitPrice := unitPrice, totalCost := totalCost,
    paidAmount := 0, remainingAmount := totalCost,
    paymentStatus := .PENDING }

/-- One vendor-affecting step. Order creation increments `totalOrders` by
1 and both `totalAmount` and `pendingAmount` by the new order's total
(lines 460-470); a payment posting updates the addressed order via
`applyMaterialPayment` and increments `totalPaid` by the amount while
decrementing `pendingAmount` by it (lines 548-557). A payment against a
missing order position answers 404 and changes nothing. -/
def stepVendor (st : VendorState) (e : VendorEvent) : VendorState :=
  match e with
  | .createOrder q p =>
    let material := createMaterialOrder q p
    { vendor := { st.vendor with
        totalOrders := st.vendor.totalOrders + 1
        totalAmount := st.vendor.totalAmount + material.totalCost
        pendingAmount := st.vendor.pendingAmount + material.totalCost }
      orders := st.orders ++ [material] }
  | .postPayment idx a =>
    match st.orders[idx]? with
    | none => st
    | some material =>
      { vendor := { st.vendor with
          totalPaid := st.vendor.totalPaid + a
          pendingAmount := st.vendor.pendingAmount - a }
        orders := st.orders.set idx (applyMaterialPayment material a).1 }

/-- A vendor that has never been involved in any order. -/
def initialVendorState : VendorState :=
  { vendor :=
      { totalOrders := 0, totalAmount := 0, pendingAmount := 0, totalPaid := 0 },
    orders := [] }

/-- Replaying a sequence of vendor-affecting operations. -/
def runVendorEvents (st : VendorState) (events : List VendorEvent) :
    VendorState :=
  events.foldl stepVendor st

/-- Replaying a sequence of operations from a fresh vendor. -/
def runVendor (events : List VendorEvent) : VendorState :=
  runVendorEvents initialVendorState events

/-- Sum of the orders' total costs. -/
def sumTotals (orders : List Material) : ℚ :=
  (orders.map (·.totalCost)).sum

/-- Sum of the orders' paid amounts. -/
def sumPaidOrders (orders : List Material) : ℚ :=
  (orders.map (·.paidAmount)).sum

/-- Sum of the orders' (clamped) remaining amounts. -/
def sumRemaining (orders : List Material) : ℚ :=
  (orders.map (·.remainingAmount)).sum

theorem sum_map_set (f : Material → ℚ) (l : List Material) (i : ℕ)
    (m m' : Material) (h : l[i]? = some m) :
    ((l.set i m').map f).sum = (l.map f).sum - f m + f m' := by
  induction l generalizing i with
  | nil => simp at h
  | cons a t ih =>
    cases i with
    | zero =>
      simp only [List.getElem?_cons_zero, Option.some.injEq] at h
      subst h
      simp only [List.set_cons_zero, List.map_cons, List.sum_cons]
      ring
    | succ n =>
      simp only [List.getElem?_cons_succ] at h
      simp only [List.set_cons_succ, List.map_cons, List.sum_cons, ih n h]
      ring

/-- The vendor-aggregate invariant the code actually maintains. -/
def VendorState.consistent (st : VendorState) : Prop :=
  st.vendor.totalOrders = st.orders.length ∧
  st.vendor.totalAmount = sumTotals st.orders ∧
  st.vendor.totalPaid = sumPaidOrders st.orders ∧
  st.vendor.pendingAmount = st.vendor.totalAmount - st.vendor.totalPaid

theorem stepVendor_consistent (st : VendorState) (e : VendorEvent)
    (h : st.consistent) : (stepVendor st e).consistent := by
  obtain ⟨hlen, htot, hpaid, hpend⟩ := h
  cases e with
  | createOrder q p =>
    refine ⟨?_, ?_, ?_, ?_⟩ <;>
      · simp [stepVendor, sumTotals, sumPaidOrders, hlen, htot, hpaid,
          hpend, createMaterialOrder]
        try ring
  | postPayment idx a =>
    cases hm : st.orders[idx]? with
    | none => exact ⟨by simp [stepVendor, hm, hlen],
        by simp [stepVendor, hm, htot], by simp [stepVendor, hm, hpaid],
        by simp [stepVendor, hm, hpend]⟩
    | some material =>
      refine ⟨?_, ?_, ?_, ?_⟩
      · simp [stepVendor, hm, hlen, List.length_set]
      · simp only [stepVendor, hm]
        rw [htot]
        show sumTotals st.orders
          = sumTotals (st.orders.set idx (applyMaterialPayment material a).1)
        unfold sumTotals
        rw [sum_map_set _ _ _ material _ hm]
        show (st.orders.map (·.totalCost)).sum
          = (st.orders.map (·.totalCost)).sum - material.totalCost
            + material.totalCost
        ring
      · simp only [stepVendor, hm]
        rw [hpaid]
        show sumPaidOrders st.orders + a
          = sumPaidOrders
              (st.orders.set idx (applyMaterialPayment material a).1)
        unfold sumPaidOrders
        rw [sum_map_set _ _ _ material _ hm]
        show (st.orders.map (·.paidAmount)).sum + a
          = (st.orders.map (·.paidAmount)).sum - material.paidAmount
            + (material.paidAmount + a)
        ring
      · simp only [stepVendor, hm]
        rw [hpend]
        ring

theorem runVendorEvents_consistent (events : List VendorEvent)
    (st : VendorState) (h : st.consistent) :
    (runVendorEvents st events).consistent := by
  induction events generalizing st with
  | nil => exact h
  | cons e t ih =>
    simp only [runVendorEvents, List.foldl_cons]
    exact ih (stepVendor st e) (stepVendor_consistent st e h)

/-- C8 amended: after any sequence of order creations and payment postings
on a fresh vendor, `totalOrders` is the number of orders, `totalAmount` is
the sum of the orders' total costs, `totalPaid` is the sum of their paid
amounts, and `pendingAmount` equals `totalAmount - totalPaid` (NOT the sum
of the orders' clamped remaining amounts, which differs once an order is
overpaid); moreover any run of payments against existing orders adds their
sum to `totalPaid` and subtracts it from `pendingAmount`. -/
theorem vendorStats_spec :
    (∀ events : List VendorEvent,
      (runVendor events).vendor.totalOrders
        = (runVendor events).orders.length ∧
      (runVendor events).vendor.totalAmount
        = sumTotals (runVendor events).orders ∧
      (runVendor events).vendor.totalPaid
        = sumPaidOrders (runVendor events).orders ∧
      (runVendor events).vendor.pendingAmount
        = (runVendor events).vendor.totalAmount
          - (runVendor events).vendor.totalPaid) ∧
    (∀ (st : VendorState) (pays : List (ℕ × ℚ)),
      (∀ p ∈ pays, p.1 < st.orders.length) →
      (runVendorEvents st
          (pays.map (fun p => .postPayment p.1 p.2))).vendor.totalPaid
        = st.vendor.totalPaid + (pays.map (·.2)).sum ∧
      (runVendorEvents st
          (pays.map (fun p => .postPayment p.1 p.2))).vendor.pendingAmount
        = st.vendor.pendingAmount - (pays.map (·.2)).sum) := by
  constructor
  · intro events
    refine runVendorEvents_consistent events initialVendorState
      ⟨rfl, rfl, rfl, ?_⟩
    norm_num [initialVendorState]
  · intro st pays
    induction pays generalizing st with
    | nil =>
      intro _
      simp [runVendorEvents]
    | cons q t ih =>
      intro hlt
      obtain ⟨m, hm⟩ : ∃ m, st.orders[q.1]? = some m := by
        have : q.1 < st.orders.length := hlt q (List.mem_cons_self q t)
        exact ⟨st.orders[q.1], List.getElem?_eq_some.mpr ⟨this, rfl⟩⟩
      have hstep : stepVendor st (.postPayment q.1 q.2)
          = { vendor :=
                { st.vendor with
                  totalPaid := st.vendor.totalPaid + q.2,
                  pendingAmount := st.vendor.pendingAmount - q.2 },
              orders := st.orders.set q.1 (applyMaterialPayment m q.2).1 } := by
        simp [stepVendor, hm]
      have hlen : (stepVendor st (.postPayment q.1 q.2)).orders.length
          = st.orders.length := by
        rw [hstep]
        exact List.length_set st.orders q.1 _
      have ih' := ih (stepVendor st (.postPayment q.1 q.2))
        (by
          intro p hp
          rw [hlen]
          exact hlt p (List.mem_cons_of_mem q hp))
      simp only [List.map_cons, List.foldl_cons, List.sum_cons,
        runVendorEvents] at ih' ⊢
      constructor
      · rw [ih'.1, hstep]
        show st.vendor.totalPaid + q.2 + (t.map (·.2)).sum
          = st.vendor.totalPaid + (q.2 + (t.map (·.2)).sum)
        ring
      · rw [ih'.2, hstep]
        show st.vendor.pendingAmount - q.2 - (t.map (·.2)).sum
          = st.vendor.pendingAmount - (q.2 + (t.map (·.2)).sum)
        ring

/-- Witness for `vendorStats_spec`: one order of total 100 on a fresh
vendor, then a payment of 60 against it. -/
theorem vendorStats_spec_witness :
    ((runVendor [VendorEvent.createOrder 1 100]).vendor.totalAmount
      = sumTotals (runVendor [VendorEvent.createOrder 1 100]).orders) ∧
    ((∀ p ∈ [((0 : ℕ), (60 : ℚ))],
        p.1 < (runVendor [VendorEvent.createOrder 1 100]).orders.length) ∧
      (runVendorEvents (runVendor [VendorEvent.createOrder 1 100])
          ([((0 : ℕ), (60 : ℚ))].map
            (fun p => .postPayment p.1 p.2))).vendor.totalPaid
        = (runVendor [VendorEvent.createOrder 1 100]).vendor.totalPaid
          + ([((0 : ℕ), (60 : ℚ))].map (·.2)).sum) := by
  have hmem : ∀ p ∈ [((0 : ℕ), (60 : ℚ))],
      p.1 < (runVendor [VendorEvent.createOrder 1 100]).orders.length := by
    simp [runVendor, runVendorEvents, stepVendor, initialVendorState]
  exact ⟨(vendorStats_spec.1 [VendorEvent.createOrder 1 100]).2.1,
    hmem, (vendorStats_spec.2 (runVendor [VendorEvent.createOrder 1 100])
      [((0 : ℕ), (60 : ℚ))] hmem).1⟩

/-- The event sequence refuting the claimed pending-equals-sum-of-
remainings invariant: create one order of total 100, then overpay 150. -/
def evsC8 : List VendorEvent :=
  [.createOrder 1 100, .postPayment 0 150]

/-- C8 refutation: after an overshooting payment the vendor's
`pendingAmount` is -50 while the sum of the orders' clamped remaining
amounts is 0, so the two disagree. -/
theorem vendorStats_counterexample :
    (runVendor evsC8).vendor.pendingAmount = -50 ∧
    sumRemaining (runVendor evsC8).orders = 0 ∧
    (runVendor evsC8).vendor.pendingAmount
      ≠ sumRemaining (runVendor evsC8).orders := by
  refine ⟨?_, ?_, ?_⟩ <;>
    norm_num [runVendor, runVendorEvents, evsC8, stepVendor,
      initialVendorState, createMaterialOrder, applyMaterialPayment,
      sumRemaining, max_def]

/-- A payment milestone (Prisma `payment` rows, src/routes/payments.js).
Timestamps are an abstract Nat clock; due-date and reminder columns are
omitted (no claim reads them), and the child part-payment rows live in
their own list where a claim needs them. -/
structure Milestone where
  stageName : String
  amount : ℚ
  paidAmount : ℚ
  status : MilestoneStatus
  adminAcknowledged : Bool
  adminAcknowledgedAt : Option ℕ
  adminAcknowledgedBy : Option String
  clientAcknowledged : Bool
  clientAcknowledgedAt : Option ℕ
  clientNotes : Option String
  isPartPayment : Bool
  paidDate : Option ℕ
  deriving DecidableEq, Repr

/-- A child `partPayment` row created on a partial confirmation
(src/routes/payments.js lines 296-307). -/
structure PartPayment where
  amount : ℚ
  notes : Option String
  receiptUrl : Option String
  adminAcknowledged : Bool
  clientAcknowledged : Bool
  deriving DecidableEq, Repr

/-- A notification intent (row of the `notification` table). The
locale-formatted amounts interpolated into messages are not modelled. -/
structure Notification where
  userId : String
  title : String
  message : String
  ntype : NotifType
  deriving DecidableEq, Repr

/-- The ALERT notification the client-acknowledge handler sends to the
project's admin on rejection (src/routes/payments.js lines 210-219). -/
def rejectionAlert (adminId : String) (payment : Milestone)
    (notes : Option String) : Notification :=
  { userId := adminId,
    title := "Payment Acknowledgment Rejected",
    message := "Client rejected acknowledgment for \"" ++ payment.stageName
      ++ "\". Notes: " ++ notes.getD "No notes provided",
    ntype := .ALERT }

/-- The SUCCESS notification sent to the admin when the client accepts
(src/routes/payments.js lines 239-249). -/
def clientAckSuccess (adminId : String) (payment : Milestone) :
    Notification :=
  { userId := adminId,
    title := "Client Acknowledged Payment",
    message := "Client acknowledged \"" ++ payment.stageName
      ++ "\". Please confirm payment receipt.",
    ntype := .SUCCESS }

/-- The reminder sent to the client when the admin requests
acknowledgment (src/routes/payments.js lines 168-179). -/
def ackRequest (clientId : String) (payment : Milestone) : Notification :=
  { userId := clientId,
    title := "Payment Acknowledgment Required",
    message := "Please acknowledge payment milestone \""
      ++ payment.stageName ++ "\"",
    ntype := .PAYMENT_REMINDER }

/-- POST /api/payments/:id/request-acknowledgment
(src/routes/payments.js lines 153-192): unconditionally updates the
milestone to AWAITING_CLIENT with `adminAcknowledged = true`, actor and
timestamp, and notifies the project's client when one exists. No check of
the current status is performed. -/
def requestAcknowledgment (payment : Milestone) (adminUserId : String)
    (clientId? : Option String) (now : ℕ) : Milestone × List Notification :=
  let updated := { payment with
      status := .AWAITING_CLIENT,
      adminAcknowledged := true,
      adminAcknowledgedAt := some now,
      adminAcknowledgedBy := some adminUserId }
  (updated, clientId?.elim [] (fun c => [ackRequest c updated]))

/-- POST /api/payments/:id/client-acknowledge
(src/routes/payments.js lines 197-262). On `accepted` falsy the handler
only notifies the project's admin (when one exists) and returns without
updating the milestone row; on accept it records the client flag,
timestamp and notes and moves the status to AWAITING_ADMIN. -/
def clientAcknowledge (payment : Milestone) (adminId? : Option String)
    (accepted : Bool) (notes : Option String) (now : ℕ) :
    Milestone × List Notification :=
  if !accepted then
    (payment, adminId?.elim [] (fun a => [rejectionAlert a payment notes]))
  else
    let updated := { payment with
        clientAcknowledged := true,
        clientAcknowledgedAt := some now,
        clientNotes := notes,
        status := .AWAITING_ADMIN }
    (updated, adminId?.elim [] (fun a => [clientAckSuccess a updated]))

/-- JavaScript `x || d` on an optional numeric request field: both an
absent field and 0 are falsy and yield the default. -/
def jsOrQ (x : Option ℚ) (d : ℚ) : ℚ :=
  match x with
  | none => d
  | some v => if v = 0 then d else v

/-- POST /api/payments/:id/confirm-payment
(src/routes/payments.js lines 267-321): 404 when the milestone is missing;
400 unless both acknowledgment flags are already true;
`paymentAmount = amount || existingPayment.amount` (the FULL milestone
amount, not the remaining); `newPaidAmount = paidAmount + paymentAmount`;
`isFullyPaid = newPaidAmount >= amount`; a part-payment child row is
created when `isPartPayment` is set or the milestone is not fully paid;
the milestone is updated with the new paid amount, `paidDate` on full
payment, status PAID or PARTIAL. -/
def confirmPayment (existing? : Option Milestone) (amount? : Option ℚ)
    (isPartPayment : Bool) (notes receiptUrl : Option String) (now : ℕ) :
    Res (Milestone × Option PartPayment) :=
  match existing? with
  | none => .err .NotFound
  | some existingPayment =>
    if !existingPayment.adminAcknowledged
        || !existingPayment.clientAcknowledged then
      .err .PreconditionFailed
    else
      let paymentAmount := jsOrQ amount? existingPayment.amount
      let newPaidAmount := existingPayment.paidAmount + paymentAmount
      let isFullyPaid : Bool := existingPayment.amount ≤ newPaidAmount
      let partPayment? : Option PartPayment :=
        if isPartPayment || !isFullyPaid then
          some { amount := paymentAmount, notes := notes,
                 receiptUrl := receiptUrl, adminAcknowledged := true,
                 clientAcknowledged := existingPayment.clientAcknowledged }
        else none
      let updated := { existingPayment with
          paidAmount := newPaidAmount,
          paidDate := if isFullyPaid then some now else none,
          status := if isFullyPaid then .PAID else .PARTIAL,
          isPartPayment := !isFullyPaid }
      .ok (updated, partPayment?)

/-- C2: confirmPayment answers PreconditionFailed - before any write -
unless both acknowledgment flags are true; of the four flag combinations
only (true, true) reaches the success path. -/
theorem confirmPayment_acknowledgment_spec :
    ∀ (m : Milestone) (amount? : Option ℚ) (ipp : Bool)
      (notes receiptUrl : Option String) (now : ℕ),
      (¬ (m.adminAcknowledged = true ∧ m.clientAcknowledged = true) →
        confirmPayment (some m) amount? ipp notes receiptUrl now
          = .err .PreconditionFailed) ∧
      (m.adminAcknowledged = true → m.clientAcknowledged = true →
        (confirmPayment (some m) amount? ipp notes receiptUrl now).isOk
          = true) := by
  intro m amount? ipp notes receiptUrl now
  cases ha : m.adminAcknowledged <;> cases hc : m.clientAcknowledged <;>
    simp [confirmPayment, ha, hc, Res.isOk]

/-- A milestone with only the admin flag set, used by the witness. -/
def msHalfAcked : Milestone :=
  { stageName := "Foundation", amount := 100, paidAmount := 0,
    status := .AWAITING_CLIENT, adminAcknowledged := true,
    adminAcknowledgedAt := some 1, adminAcknowledgedBy := some "admin-1",
    clientAcknowledged := false, clientAcknowledgedAt := none,
    clientNotes := none, isPartPayment := false, paidDate := none }

/-- A fully acknowledged milestone of amount 100 with 40 already paid. -/
def msC3 : Milestone :=
  { stageName := "Structure", amount := 100, paidAmount := 40,
    status := .AWAITING_ADMIN, adminAcknowledged := true,
    adminAcknowledgedAt := some 1, adminAcknowledgedBy := some "admin-1",
    clientAcknowledged := true, clientAcknowledgedAt := some 2,
    clientNotes := none, isPartPayment := true, paidDate := none }

/-- Witness for `confirmPayment_acknowledgment_spec`: a (true, false)
milestone is refused and a (true, true) milestone succeeds. -/
theorem confirmPayment_acknowledgment_spec_witness :
    (¬ (msHalfAcked.adminAcknowledged = true ∧
        msHalfAcked.clientAcknowledged = true) ∧
      confirmPayment (some msHalfAcked) none false none none 0
        = .err .PreconditionFailed) ∧
    (msC3.adminAcknowledged = true ∧ msC3.clientAcknowledged = true ∧
      (confirmPayment (some msC3) none false none none 0).isOk = true) :=
  ⟨⟨by simp [msHalfAcked],
    (confirmPayment_acknowledgment_spec msHalfAcked none false none none
      0).1 (by simp [msHalfAcked])⟩,
   ⟨rfl, rfl,
    (confirmPayment_acknowledgment_spec msC3 none false none none 0).2
      rfl rfl⟩⟩

/-- C3 refutation: confirming `msC3` (amount 100, paid 40) without an
amount applies the FULL amount 100 - paid becomes 140 - not the remaining
60, which would have given 100. -/
theorem confirmPayment_default_counterexample :
    msC3.amount - msC3.paidAmount = 60 ∧
    (confirmPayment (some msC3) none false none none 0).toOption.map
      (fun r => r.1.paidAmount) = some 140 ∧
    (140 : ℚ) ≠ msC3.paidAmount + (msC3.amount - msC3.paidAmount) := by
  refine ⟨by norm_num [msC3], ?_, by norm_num [msC3]⟩
  norm_num [confirmPayment, jsOrQ, msC3, Res.toOption]

/-- C3 amended: on a fully acknowledged milestone, confirmPayment without
an amount defaults to the milestone's FULL target amount, so the new paid
amount is the previous paid amount plus the whole milestone amount (not
the remaining). -/
theorem confirmPayment_default_spec :
    ∀ (m : Milestone) (ipp : Bool) (notes receiptUrl : Option String)
      (now : ℕ),
      m.adminAcknowledged = true → m.clientAcknowledged = true →
      (confirmPayment (some m) none ipp notes receiptUrl now).toOption.map
        (fun r => r.1.paidAmount) = some (m.paidAmount + m.amount) := by
  intro m ipp notes receiptUrl now ha hc
  simp [confirmPayment, jsOrQ, ha, hc, Res.toOption]

/-- Witness for `confirmPayment_default_spec` at `msC3`: paid becomes
40 + 100. -/
theorem confirmPayment_default_spec_witness :
    msC3.adminAcknowledged = true ∧ msC3.clientAcknowledged = true ∧
    (confirmPayment (some msC3) none false none none 0).toOption.map
      (fun r => r.1.paidAmount) = some (msC3.paidAmount + msC3.amount) :=
  ⟨rfl, rfl, confirmPayment_default_spec msC3 false none none 0 rfl rfl⟩

/-- C5: rejecting client acknowledgment leaves the milestone record
entirely unchanged (full record equality, hence status, both flags, paid
amount and every other ledger field keep their values) and emits exactly
one ALERT notification addressed to the project's admin when one exists,
and nothing else. -/
theorem clientAcknowledge_reject_spec :
    ∀ (m : Milestone) (adminId? : Option String) (notes : Option String)
      (now : ℕ),
      (clientAcknowledge m adminId? false notes now).1 = m ∧
      (clientAcknowledge m adminId? false notes now).2
        = adminId?.elim [] (fun a => [rejectionAlert a m notes]) ∧
      ∀ a : String, (rejectionAlert a m notes).ntype = .ALERT ∧
        (rejectionAlert a m notes).userId = a :=
  fun _ _ _ _ => ⟨rfl, rfl, fun _ => ⟨rfl, rfl⟩⟩

/-- C10: requestAcknowledgment performs its update for every milestone,
whatever its current status (the universally quantified `m` includes
PARTIAL and PAID ones): status becomes AWAITING_CLIENT,
`adminAcknowledged` becomes true with actor and timestamp, and the target
amount, paid amount, client-side fields and payment fields are untouched.
No precondition is checked. -/
theorem requestAcknowledgment_spec :
    ∀ (m : Milestone) (adminUserId : String) (clientId? : Option String)
      (now : ℕ),
      (requestAcknowledgment m adminUserId clientId? now).1.status
        = .AWAITING_CLIENT ∧
      (requestAcknowledgment m adminUserId clientId? now).1.adminAcknowledged
        = true ∧
      (requestAcknowledgment m adminUserId clientId? now).1.adminAcknowledgedAt
        = some now ∧
      (requestAcknowledgment m adminUserId clientId? now).1.adminAcknowledgedBy
        = some adminUserId ∧
      (requestAcknowledgment m adminUserId clientId? now).1.amount
        = m.amount ∧
      (requestAcknowledgment m adminUserId clientId? now).1.paidAmount
        = m.paidAmount ∧
      (requestAcknowledgment m adminUserId clientId? now).1.clientAcknowledged
        = m.clientAcknowledged ∧
      (requestAcknowledgment m adminUserId clientId? now).1.clientAcknowledgedAt
        = m.clientAcknowledgedAt ∧
      (requestAcknowledgment m adminUserId clientId? now).1.clientNotes
        = m.clientNotes ∧
      (requestAcknowledgment m adminUserId clientId? now).1.isPartPayment
        = m.isPartPayment ∧
      (requestAcknowledgment m adminUserId clientId? now).1.paidDate
        = m.paidDate ∧
      (requestAcknowledgment m adminUserId clientId? now).1.stageName
        = m.stageName :=
  fun _ _ _ _ =>
    ⟨rfl, rfl, rfl, rfl, rfl, rfl, rfl, rfl, rfl, rfl, rfl, rfl⟩

/-- A project's payment state: its `spent` figure and its milestones. -/
structure ProjectState where
  spent : ℚ
  milestones : List Milestone
  deriving DecidableEq, Repr

/-- Sum of `paidAmount` over a project's milestones
(src/routes/payments.js lines 324-327). -/
def sumPaidMilestones (ms : List Milestone) : ℚ :=
  (ms.map (·.paidAmount)).sum

/-- The confirm-payment handler seen at project level
(src/routes/payments.js lines 267-332): update the addressed milestone,
then recompute the project's `spent` as the sum of `paidAmount` over ALL
its milestones. -/
def confirmPaymentInProject (st : ProjectState) (idx : ℕ)
    (amount? : Option ℚ) (ipp : Bool) (notes receiptUrl : Option String)
    (now : ℕ) : Res ProjectState :=
  match confirmPayment st.milestones[idx]? amount? ipp notes receiptUrl
      now with
  | .err e => .err e
  | .ok (updated, _) =>
    let allPayments := st.milestones.set idx updated
    .ok { spent := sumPaidMilestones allPayments,
          milestones := allPayments }

/-- A successful outcome leaves `spent` equal to the milestone paid sum;
an error outcome carries no state. -/
def Res.spentMatches : Res ProjectState → Prop
  | .err _ => True
  | .ok st => st.spent = sumPaidMilestones st.milestones

/-- The two-milestone project of the C9 scenario: amounts 100 and 200,
both fully acknowledged, nothing paid, spent 0. -/
def stC9 : ProjectState :=
  { spent := 0,
    milestones :=
      [{ stageName := "Advance", amount := 100, paidAmount := 0,
         status := .AWAITING_ADMIN, adminAcknowledged := true,
         adminAcknowledgedAt := some 1, adminAcknowledgedBy := some "a",
         clientAcknowledged := true, clientAcknowledgedAt := some 2,
         clientNotes := none, isPartPayment := false, paidDate := none },
       { stageName := "Handover", amount := 200, paidAmount := 0,
         status := .AWAITING_ADMIN, adminAcknowledged := true,
         adminAcknowledgedAt := some 1, adminAcknowledgedBy := some "a",
         clientAcknowledged := true, clientAcknowledgedAt := some 2,
         clientNotes := none, isPartPayment := false, paidDate := none }] }

/-- C9: every confirmPayment outcome leaves the project's `spent` equal to
the sum of `paidAmount` over all its milestones; in particular fully
paying the 100 and 200 milestones of `stC9` yields spent 300 in either
confirmation order. -/
theorem confirmPayment_projectSpent_spec :
    (∀ (st : ProjectState) (idx : ℕ) (amount? : Option ℚ) (ipp : Bool)
      (notes receiptUrl : Option String) (now : ℕ),
      Res.spentMatches
        (confirmPaymentInProject st idx amount? ipp notes receiptUrl now)) ∧
    ((confirmPaymentInProject stC9 0 none false none none 0).toOption.bind
      (fun st1 =>
        (confirmPaymentInProject st1 1 none false none none
          0).toOption.map (fun st2 => st2.spent)) = some 300) ∧
    ((confirmPaymentInProject stC9 1 none false none none 0).toOption.bind
      (fun st1 =>
        (confirmPaymentInProject st1 0 none false none none
          0).toOption.map (fun st2 => st2.spent)) = some 300) := by
  refine ⟨?_, ?_, ?_⟩
  · intro st idx amount? ipp notes receiptUrl now
    cases h : confirmPayment st.milestones[idx]? amount? ipp notes
        receiptUrl now with
    | err e => simp [confirmPaymentInProject, h, Res.spentMatches]
    | ok pr =>
      cases pr with
      | mk updated pp =>
        simp [confirmPaymentInProject, h, Res.spentMatches]
  · norm_num [confirmPaymentInProject, confirmPayment, jsOrQ, stC9,
      Res.toOption, sumPaidMilestones]
  · norm_num [confirmPaymentInProject, confirmPayment, jsOrQ, stC9,
      Res.toOption, sumPaidMilestones]

end DSquare
